import Mathlib

/-!
Verification development for the CELESTE7 behavioral-intervention service.

Shallow embedding of the JavaScript source in Lean 4:
* JS numbers are modelled as `ℚ` (the claims under study do not hinge on
  floating-point rounding); counts and day totals read from the database are
  `ℕ`; `Math.round` is `jsRound` (floor of x + 1/2, matching JS rounding
  for the quantities involved).
* A JS value that may be `NaN` at a use site is modelled as `Option ℚ`
  (`none` = NaN); the JS comparisons `NaN > t = false` and `NaN || 0 = 0`
  are modelled by `confGtBool` and `jsOrQ`.
* A database call is a value of `Db α`: `ok a` (resolved, possibly with
  empty data), `softError` (resolved with a non-null `error` field), or
  `hardFailure` (the promise rejected, e.g. a circuit-breaker timeout).
* Express handlers become pure functions from a request body and a database
  snapshot to a response record carrying the HTTP status and the JSON fields
  the claims mention.
-/

namespace Celeste7

/-- JS `Math.round` for the quantities used by the service. -/
def jsRound (x : ℚ) : ℤ := (x + 1/2).floor

/-- JS `x || 0` applied to a possibly-NaN number (`none` = NaN). -/
def jsOrQ : Option ℚ → ℚ
  | none => 0
  | some x => x

/-- JS `c > t` where `c` may be NaN (`none`): NaN compares false. -/
def confGtBool (c : Option ℚ) (t : ℚ) : Bool :=
  match c with
  | none => false
  | some x => decide (t < x)

/-- JS `Math.min` on two numbers (no NaN at its use sites). -/
def minQ (a b : ℚ) : ℚ := if a ≤ b then a else b

/-- JS falsiness of an optional string field: missing or empty. -/
def jsFalsy : Option String → Bool
  | none => true
  | some s => decide (s = "")

/-- `leadMatch pat s`: `pat` is an initial run of `s` (character lists). -/
def leadMatch : List Char → List Char → Bool
  | [], _ => true
  | _ :: _, [] => false
  | a :: as, b :: bs => a == b && leadMatch as bs

/-- `occursIn pat s`: `pat` occurs contiguously inside `s`; models JS
`String.prototype.includes`. -/
def occursIn (pat : List Char) : List Char → Bool
  | [] => pat.isEmpty
  | c :: t => leadMatch pat (c :: t) || occursIn pat t

/-- JS `s.includes(pat)` on strings. -/
def strContains (s pat : String) : Bool := occursIn pat.data s.data

/-- JS `s.toLowerCase()` (per-character lowering). -/
def lowerStr (s : String) : String := String.mk (s.data.map Char.toLower)

/-- Insert an element into a list kept sorted by descending key; the building
block of the model of JS `array.sort((a, b) => key(b) - key(a))`. -/
def insertDescBy {α β : Type} [LinearOrder β] (k : α → β) (a : α) :
    List α → List α
  | [] => [a]
  | b :: l => if k b ≤ k a then a :: b :: l else b :: insertDescBy k a l

/-- Sort a list by descending key; models JS
`array.sort((a, b) => key(b) - key(a))`. -/
def sortByKeyDesc {α β : Type} [LinearOrder β] (k : α → β) :
    List α → List α
  | [] => []
  | a :: l => insertDescBy k a (sortByKeyDesc k l)

/-!
## Engine model (`celeste7-real-engine`, src/unnamed/part_000)

The five detectors of `RealTimeBehavioralIntelligence`. Each takes the
already-fetched metrics of one user (the rows the detector reads from
Supabase, with a resolved-but-empty read modelled as empty lists / zeros)
and produces `none` (no pattern) or a result record.
-/

/-- A detector result (`{confidence, severity, estimated_cost, evidence}`).
`estimated_cost` is `Option ℚ` because two detectors compute
`undefined * x = NaN` when part of their evidence is absent. `evidence` is
the truthiness of the evidence object (always true when a result is
returned, kept because `detectDataDrivenPatterns` tests it). -/
structure DetectResult where
  confidence : ℚ
  severity : String
  estimated_cost : Option ℚ
  evidence : Bool
deriving Repr, DecidableEq

/-- A merged pattern entry as pushed by `detectDataDrivenPatterns`. -/
structure DetectedPattern where
  ptype : String
  confidence : ℚ
  severity : String
  cost : ℚ
deriving Repr, DecidableEq

/-- Inputs of `ProcrastinationDetector`: per-open-task delay in days
(`Math.floor((now - created_at)/day)` for tasks created in the past), and
the future-word / action-word hit counts over recent messages. -/
structure ProcInputs where
  openTaskDelays : List ℕ
  futureCount : ℕ
  actionCount : ℕ
deriving Repr, DecidableEq

/-- `taskDelays.delayScore = Math.min(avgDelay / 30, 1)`, 0 when no open
tasks. -/
def procDelayScore (delays : List ℕ) : ℚ :=
  if delays.isEmpty then 0
  else minQ (((delays.sum : ℚ) / (delays.length : ℚ)) / 30) 1

/-- `futureRatio = futureCount / (futureCount + actionCount || 1)`, 0 when
no messages / no hits. -/
def procFutureScore (futureCount actionCount : ℕ) : ℚ :=
  if futureCount + actionCount = 0 then 0
  else (futureCount : ℚ) / ((futureCount + actionCount : ℕ) : ℚ)

/-- `confidence = (delayScore + futureScore) / 2`. -/
def procConfidence (inp : ProcInputs) : ℚ :=
  (procDelayScore inp.openTaskDelays
    + procFutureScore inp.futureCount inp.actionCount) / 2

/-- `ProcrastinationDetector.detect`. -/
def procDetect (inp : ProcInputs) (mrr : ℚ) : Option DetectResult :=
  if inp.openTaskDelays.isEmpty ∧
      ¬ (3/5 < procFutureScore inp.futureCount inp.actionCount) then none
  else
    some { confidence := procConfidence inp,
           severity := if 4/5 < procConfidence inp then "critical"
                       else if 3/5 < procConfidence inp then "high"
                       else "medium",
           estimated_cost := if inp.openTaskDelays.isEmpty then none
                             else some ((inp.openTaskDelays.sum : ℚ) * (mrr / 30)),
           evidence := true }

/-- One competitor row from `user_business_context`. -/
structure CompetitorRow where
  mrr : ℚ
  product_count : ℕ
deriving Repr, DecidableEq

/-- The business metrics computed by `getBusinessTruth`. -/
structure EngineBusinessMetrics where
  current_mrr : ℚ
  avg_transaction_value : ℚ
  product_count : ℕ
  revenue_history : List ℚ
deriving Repr, DecidableEq

/-- `userMetrics.product_count || 1` as a rational. -/
def pricingPCount (b : EngineBusinessMetrics) : ℚ :=
  if b.product_count = 0 then 1 else (b.product_count : ℚ)

/-- Competitor rows with truthy `monthly_recurring_revenue` and
`product_count`. -/
def pricingComparable (comps : List CompetitorRow) : List CompetitorRow :=
  comps.filter (fun c => decide (c.mrr ≠ 0) && decide (c.product_count ≠ 0))

/-- Mean per-product price over the comparable competitor rows. -/
def pricingMarketAvg (comps : List CompetitorRow) : ℚ :=
  ((pricingComparable comps).map (fun c => c.mrr / (c.product_count : ℚ))).sum
    / ((pricingComparable comps).length : ℚ)

/-- `gapPercent = ((marketAvg - userAvgPrice) / marketAvg) * 100`. -/
def pricingGapPercent (b : EngineBusinessMetrics) (comps : List CompetitorRow) : ℚ :=
  ((pricingMarketAvg comps - b.current_mrr / pricingPCount b)
    / pricingMarketAvg comps) * 100

/-- `PricingCowardiceDetector.detect` (with `comparePricing` inlined). -/
def pricingDetect (b : EngineBusinessMetrics) (comps : List CompetitorRow) :
    Option DetectResult :=
  if b.current_mrr = 0 ∧ b.avg_transaction_value = 0 then none
  else if comps.isEmpty then none
  else if (pricingComparable comps).isEmpty then none
  else if 20 < pricingGapPercent b comps then
    some { confidence := minQ (pricingGapPercent b comps / 100) (19/20),
           severity := if 50 < jsRound (pricingGapPercent b comps) then "critical"
                       else "high",
           estimated_cost := some ((pricingMarketAvg comps
             - b.current_mrr / pricingPCount b) * pricingPCount b),
           evidence := true }
  else none

/-- Inputs of `ExecutionParalysisDetector`: planning-task count, executed
task count, number of blocker pattern rows (0 = no blockers), and days
since the latest blocker was detected. -/
structure ExecInputs where
  planningCount : ℕ
  executedCount : ℕ
  blockerPatternCount : ℕ
  daysSinceExecution : ℕ
deriving Repr, DecidableEq

/-- `planningRatio.confidence = Math.min(planningTasks.length / 10, 0.9)`. -/
def execPlanConf (p : ℕ) : ℚ := minQ ((p : ℚ) / 10) (9/10)

/-- `blockers.confidence`: 0 when no blocker rows, else
`Math.min(patterns.length / 20, 0.9)`. -/
def execBlockConf (c : ℕ) : ℚ := if c = 0 then 0 else minQ ((c : ℚ) / 20) (9/10)

/-- `confidence = (planningRatio.confidence + blockers.confidence) / 2`. -/
def execConfidence (e : ExecInputs) : ℚ :=
  (execPlanConf e.planningCount + execBlockConf e.blockerPatternCount) / 2

/-- `planningRatio.ratio = Math.round(ratio * 10) / 10` where
`ratio = planning / (executed || 1)`. -/
def execRatioRounded (e : ExecInputs) : ℚ :=
  (jsRound (((e.planningCount : ℚ)
      / (if e.executedCount = 0 then 1 else (e.executedCount : ℚ))) * 10) : ℚ) / 10

/-- `ExecutionParalysisDetector.detect`. The cost is NaN (`none`) when no
blocker rows exist (`blockers.daysSinceExecution` is then `undefined`). -/
def execDetect (e : ExecInputs) (mrr : ℚ) : Option DetectResult :=
  if execRatioRounded e < 3 ∧ e.blockerPatternCount = 0 then none
  else
    some { confidence := execConfidence e,
           severity := if e.blockerPatternCount ≠ 0 ∧ 30 < e.daysSinceExecution
                       then "critical" else "high",
           estimated_cost := if e.blockerPatternCount = 0 then none
                             else some ((e.daysSinceExecution : ℚ) * (mrr / 30)),
           evidence := true }

/-- First index of `x` in a rational list (the list always contains `x` at
its use site, mirroring JS `indexOf` on an array that includes the value). -/
def listIndexOfQ (x : ℚ) : List ℚ → ℕ
  | [] => 0
  | a :: l => if a = x then 0 else listIndexOfQ x l + 1

/-- All revenues (competitors plus the user) sorted descending, as in
`calculateRanking`. -/
def competitiveRankedRevenues (b : EngineBusinessMetrics)
    (comps : List CompetitorRow) : List ℚ :=
  sortByKeyDesc id (comps.map (fun c => c.mrr) ++ [b.current_mrr])

/-- `percentile = Math.round((rank / allRevenues.length) * 100)`. -/
def competitivePercentile (b : EngineBusinessMetrics)
    (comps : List CompetitorRow) : ℤ :=
  jsRound ((((listIndexOfQ b.current_mrr (competitiveRankedRevenues b comps)
      + 1 : ℕ) : ℚ) / ((competitiveRankedRevenues b comps).length : ℚ)) * 100)

/-- `CompetitiveDelusionDetector.detect`; `comps` is the DB result ordered
by `monthly_recurring_revenue` descending. -/
def competitiveDetect (b : EngineBusinessMetrics)
    (comps : List CompetitorRow) : Option DetectResult :=
  if comps.length < 5 then none
  else if 50 < competitivePercentile b comps then none
  else
    some { confidence := 17/20,
           severity := if competitivePercentile b comps < 20 then "critical"
                       else "high",
           estimated_cost := some (((comps.take 3).map (fun c => c.mrr)).sum / 3
             - b.current_mrr),
           evidence := true }

/-- Mean of a revenue history. -/
def listMeanQ (l : List ℚ) : ℚ := l.sum / (l.length : ℚ)

/-- Population variance of a revenue history. -/
def listVarianceQ (l : List ℚ) : ℚ :=
  ((l.map (fun r => (r - listMeanQ l) ^ 2)).sum) / (l.length : ℚ)

/-- `stdDev / avg < 0.15` without square roots: for a positive mean this is
exactly `variance < (0.15 * mean)^2`; for a negative mean the JS quotient is
non-positive, hence below 0.15; for mean 0 the JS quotient is `Infinity` or
`NaN`, both failing the comparison. -/
def volBelowThreshold (l : List ℚ) : Bool :=
  if 0 < listMeanQ l then decide (listVarianceQ l < ((3/20) * listMeanQ l) ^ 2)
  else if listMeanQ l < 0 then true
  else false

/-- Number of samples with `|r - avg| / avg < 0.1`, with the same
division-sign analysis as `volBelowThreshold`. -/
def nearAvgCount (l : List ℚ) : ℕ :=
  (l.filter (fun r =>
    if 0 < listMeanQ l then decide (|r - listMeanQ l| < listMeanQ l / 10)
    else decide (listMeanQ l < 0))).length

/-- `isStagnant = volatility < 0.15 && stagnantMonths >= length * 0.7`. -/
def isStagnantQ (l : List ℚ) : Bool :=
  volBelowThreshold l && decide ((7/10) * (l.length : ℚ) ≤ (nearAvgCount l : ℚ))

/-- `RevenueStagnationDetector.detect`. -/
def stagnationDetect (b : EngineBusinessMetrics) : Option DetectResult :=
  if b.revenue_history.length < 3 then none
  else if isStagnantQ b.revenue_history then
    some { confidence := minQ ((nearAvgCount b.revenue_history : ℚ) / 12) (9/10),
           severity := if 6 < nearAvgCount b.revenue_history then "critical"
                       else "high",
           estimated_cost := some ((b.revenue_history.headD 0
               * (11/10) ^ (nearAvgCount b.revenue_history)
               - b.revenue_history.headD 0) * (nearAvgCount b.revenue_history : ℚ)),
           evidence := true }
  else none

/-- One user's fetched data, as consumed by the five detectors (a resolved
read with no rows is empty lists / zeros). -/
structure EngineInputs where
  proc : ProcInputs
  business : EngineBusinessMetrics
  competitors : List CompetitorRow
  exec : ExecInputs
  totalSignals : ℕ
  predAccuracy : ℚ
deriving Repr, DecidableEq

/-- The `Object.entries(this.patternDetectors)` traversal, in insertion
order. -/
def runEngineDetectors (inp : EngineInputs) : List (String × Option DetectResult) :=
  [("procrastination", procDetect inp.proc inp.business.current_mrr),
   ("pricing_cowardice", pricingDetect inp.business inp.competitors),
   ("execution_paralysis", execDetect inp.exec inp.business.current_mrr),
   ("competitive_delusion", competitiveDetect inp.business inp.competitors),
   ("revenue_stagnation", stagnationDetect inp.business)]

/-- `detectDataDrivenPatterns`: keep results with `confidence > 0.7` and
truthy evidence, then `patterns.sort((a, b) => b.cost - a.cost)` with
`cost = result.estimated_cost || 0`. -/
def detectDataDrivenPatterns (results : List (String × Option DetectResult)) :
    List DetectedPattern :=
  sortByKeyDesc (fun p => p.cost)
    (results.filterMap (fun tr =>
      match tr.2 with
      | none => none
      | some res =>
        if 7/10 < res.confidence ∧ res.evidence = true then
          some { ptype := tr.1, confidence := res.confidence,
                 severity := res.severity, cost := jsOrQ res.estimated_cost }
        else none))

/-- The pattern type templated by `generateUncomfortableIntervention`:
`none` for the neutral no-pattern reply, else the first list element. -/
def generateUncomfortableInterventionPattern (l : List DetectedPattern) :
    Option String :=
  l.head?.map (fun p => p.ptype)

/-- `calculateRealConfidence`; the `|| 0.5` on a stored accuracy of 0 is the
JS falsy default. -/
def calculateRealConfidence (patterns : List DetectedPattern)
    (totalSignals : ℕ) (predAcc : ℚ) : ℚ :=
  minQ ((totalSignals : ℚ) / 10) 1 * (3/10)
    + (if predAcc = 0 then 1/2 else predAcc) * (1/2)
    + (match patterns with | [] => 1/2 | p :: _ => p.confidence) * (1/5)

/-- The fields of `analyzeUser`'s result the claims mention. -/
structure EngineResult where
  patterns : List DetectedPattern
  confidence : ℚ
  should_intervene : Bool
  interventionPattern : Option String
deriving Repr, DecidableEq

/-- `analyzeUser` on successfully fetched data. -/
def engineAnalyze (inp : EngineInputs) : EngineResult :=
  { patterns := detectDataDrivenPatterns (runEngineDetectors inp),
    confidence := calculateRealConfidence
      (detectDataDrivenPatterns (runEngineDetectors inp))
      inp.totalSignals inp.predAccuracy,
    should_intervene := (detectDataDrivenPatterns (runEngineDetectors inp)).any
      (fun p => p.severity == "critical" || decide (1000 < p.cost)),
    interventionPattern := generateUncomfortableInterventionPattern
      (detectDataDrivenPatterns (runEngineDetectors inp)) }

/-- Request body of `POST /api/analyze`. -/
structure AnalyzeBody where
  userId : Option String
  message : Option String
deriving Repr, DecidableEq

/-- Response of the legacy `POST /api/analyze` route (part_000).
`ranDetection` records whether the handler reached pattern detection. -/
structure EngineRouteResponse where
  status : ℕ
  patterns : List DetectedPattern
  should_intervene : Bool
  confidence : ℚ
  ranDetection : Bool
  interventionPattern : Option String
deriving Repr, DecidableEq

/-- The legacy `POST /api/analyze` route: 400 on a falsy `userId` or
`message`; `analyzeUser` rethrows any rejected datastore promise
(`hardFailure = true`) and the route catch answers 500; otherwise 200 with
the analysis result. -/
def apiAnalyzeRoute (body : AnalyzeBody) (hardFailure : Bool)
    (inp : EngineInputs) : EngineRouteResponse :=
  if jsFalsy body.userId || jsFalsy body.message then
    { status := 400, patterns := [], should_intervene := false,
      confidence := 0, ranDetection := false, interventionPattern := none }
  else if hardFailure then
    { status := 500, patterns := [], should_intervene := false,
      confidence := 0, ranDetection := true, interventionPattern := none }
  else
    { status := 200, patterns := (engineAnalyze inp).patterns,
      should_intervene := (engineAnalyze inp).should_intervene,
      confidence := (engineAnalyze inp).confidence,
      ranDetection := true,
      interventionPattern := (engineAnalyze inp).interventionPattern }

/-!
## Optimized-query model (`BrutalQueryOptimizer`,
src/NEW/CURSOR/pattern-queries-optimzed.js) and the Vercel analyze handler
(src/unnamed/part_001).
-/

/-- Outcome of one database call: resolved data, a resolved non-null
`error` field, or a rejected promise. -/
inductive Db (α : Type) where
  | ok : α → Db α
  | softError : Db α
  | hardFailure : Db α
deriving Repr, DecidableEq

/-- `get_procrastination_metrics` RPC row. -/
structure ProcMetrics where
  total_delay_days : ℕ
  oldest_task_age : ℕ
deriving Repr, DecidableEq

/-- `get_pricing_comparison` RPC row. -/
structure PricingData where
  your_price : ℚ
  market_average : ℚ
  customer_count : ℕ
deriving Repr, DecidableEq

/-- `get_execution_metrics` RPC row. -/
structure ExecMetrics where
  planning_count : ℕ
  shipped_count : ℕ
  days_since_ship : ℕ
  opportunity_cost : ℚ
deriving Repr, DecidableEq

/-- A pattern produced by a brutal detector. `confidence` is `Option ℚ`
because the execution detector computes NaN when the RPC returns no row. -/
structure BrutalPattern where
  pattern_type : String
  confidence : Option ℚ
  severity : String
  estimated_cost : ℤ
deriving Repr, DecidableEq

/-- `getDailyBurnRate`: `(mrr || 0) / 30 || 100`, 100 on any failure or
missing row (a zero quotient is falsy and also defaults to 100). -/
def dailyBurn (row : Db (Option ℚ)) : ℚ :=
  match row with
  | .ok (some mrr) => if mrr / 30 = 0 then 100 else mrr / 30
  | .ok none => 100
  | .softError => 100
  | .hardFailure => 100

/-- `detectProcrastinationBrutally`: any RPC error is caught and yields
`null`; a missing row defaults the day counts to 0. -/
def detectProcrastinationBrutally (rpc : Db (Option ProcMetrics)) (burn : ℚ) :
    Option BrutalPattern :=
  match rpc with
  | .softError => none
  | .hardFailure => none
  | .ok od =>
    some { pattern_type := "procrastination",
           confidence := some (minQ (((match od with
             | some m => m.total_delay_days
             | none => 0) : ℕ) / (30 : ℚ)) (19/20)),
           severity := if 60 < (match od with
             | some m => m.total_delay_days
             | none => 0) then "critical" else "high",
           estimated_cost := jsRound (((match od with
             | some m => m.total_delay_days
             | none => 0) : ℕ) * burn) }

/-- `detectPricingCowardiceBrutally`: errors caught to `null`, missing row
returns `null`; otherwise the pattern is returned unconditionally with
`confidence = Math.min(gapPercent / 50, 0.95)`. -/
def detectPricingCowardiceBrutally (rpc : Db (Option PricingData)) :
    Option BrutalPattern :=
  match rpc with
  | .softError => none
  | .hardFailure => none
  | .ok none => none
  | .ok (some d) =>
    some { pattern_type := "pricing_cowardice",
           confidence := some (minQ
             ((((d.market_average - d.your_price) / d.market_average) * 100) / 50)
             (19/20)),
           severity := if 50 < ((d.market_average - d.your_price)
               / d.market_average) * 100 then "critical" else "high",
           estimated_cost := jsRound ((d.market_average - d.your_price)
             * (d.customer_count : ℚ)) }

/-- `detectExecutionParalysisBrutally`: with no RPC row the JS ratio is
NaN, which passes the `< 3` early return (false) and yields a pattern with
NaN confidence (`none`) that the caller's filter later drops. -/
def detectExecutionParalysisBrutally (rpc : Db (Option ExecMetrics)) :
    Option BrutalPattern :=
  match rpc with
  | .softError => none
  | .hardFailure => none
  | .ok none =>
    some { pattern_type := "execution_paralysis", confidence := none,
           severity := "high", estimated_cost := 0 }
  | .ok (some m) =>
    if (m.planning_count : ℚ)
        / (if m.shipped_count = 0 then 1 else (m.shipped_count : ℚ)) < 3 then none
    else
      some { pattern_type := "execution_paralysis",
             confidence := some (minQ (((m.planning_count : ℚ)
               / (if m.shipped_count = 0 then 1 else (m.shipped_count : ℚ))) / 10)
               (19/20)),
             severity := if 60 < m.days_since_ship then "critical" else "high",
             estimated_cost := jsRound m.opportunity_cost }

/-- The database snapshot one optimized analysis call sees. `cachedFresh`
is the `pattern_cache` entry when present and within its expiry. -/
structure BrutalDb where
  cachedFresh : Option (List BrutalPattern)
  procRpc : Db (Option ProcMetrics)
  pricingRpc : Db (Option PricingData)
  execRpc : Db (Option ExecMetrics)
  burnRow : Db (Option ℚ)
deriving Repr, DecidableEq

/-- The fresh-computation body of `detectAllPatternsBrutally`: run the three
detectors, keep fulfilled non-null results with `confidence > 0.7`, sort by
`estimated_cost` descending. -/
def computeBrutalPatterns (db : BrutalDb) : List BrutalPattern :=
  sortByKeyDesc (fun p => p.estimated_cost)
    (([detectProcrastinationBrutally db.procRpc (dailyBurn db.burnRow),
       detectPricingCowardiceBrutally db.pricingRpc,
       detectExecutionParalysisBrutally db.execRpc].filterMap id).filter
      (fun p => confGtBool p.confidence (7/10)))

/-- `detectAllPatternsBrutally`: a fresh cache entry is returned as-is,
otherwise the patterns are computed; every internal failure is caught, so a
datastore failure never escapes this function. -/
def detectAllPatternsBrutally (db : BrutalDb) : List BrutalPattern :=
  match db.cachedFresh with
  | some cached => cached
  | none => computeBrutalPatterns db

/-- Response of `handleAnalyze` (src/unnamed/part_001). -/
structure AnalyzeResponse where
  status : ℕ
  patterns : List BrutalPattern
  interventionPattern : Option String
  should_intervene : Bool
  confidence : ℚ
  ranDetection : Bool
deriving Repr, DecidableEq

/-- `handleAnalyze`: 400 on falsy `userId`/`message`; otherwise patterns are
detected, an intervention is generated from the first critical-severity
pattern when one exists (`patterns.find(p => p.severity === 'critical')`),
and the response is 200 with `confidence = patterns[0]?.confidence || 0`. -/
def handleAnalyze (body : AnalyzeBody) (db : BrutalDb) : AnalyzeResponse :=
  if jsFalsy body.userId || jsFalsy body.message then
    { status := 400, patterns := [], interventionPattern := none,
      should_intervene := false, confidence := 0, ranDetection := false }
  else
    { status := 200,
      patterns := detectAllPatternsBrutally db,
      interventionPattern := ((detectAllPatternsBrutally db).find?
        (fun p => p.severity == "critical")).map (fun p => p.pattern_type),
      should_intervene := ((detectAllPatternsBrutally db).find?
        (fun p => p.severity == "critical")).isSome,
      confidence := match detectAllPatternsBrutally db with
        | [] => 0
        | p :: _ => jsOrQ p.confidence,
      ranDetection := true }

/-!
## Brutal interventions (`BrutalInterventionGenerator`,
src/NEW/CURSOR/brutal-interventions.js)
-/

/-- An apostrophe character, for the hedge marker written `can't` in the
source. -/
def apos : Char := Char.ofNat 39

/-- The marker `can't`. -/
def cantWord : String := String.mk ['c', 'a', 'n', apos, 't']

/-- The fixed `resistanceMarkers` list of `trackResistance`. -/
def resistanceMarkers : List String :=
  ["but", "however", "yes but", cantWord, "impossible",
   "maybe later", "not ready", "need to think",
   "too aggressive", "too harsh", "unfair"]

/-- `resistanceScore`: one point per marker contained in the lowercased
reply (`userResponse.toLowerCase().includes(marker)`). -/
def resistanceScore (reply : String) : ℕ :=
  (resistanceMarkers.filter (fun m => strContains (lowerStr reply) m)).length

/-- The resistance level stored by `trackResistance`:
`Math.min((current || 0) + (score > 2 ? 1 : 0), 5)`. -/
def trackResistanceStored (before : ℕ) (reply : String) : ℕ :=
  min (before + (if 2 < resistanceScore reply then 1 else 0)) 5

/-- The `resistanceLevels` lookup table (keys 0–5 only; any other index is
a JS `undefined`, modelled `none`). -/
def resistanceLevels (n : ℤ) : Option String :=
  if n = 0 then some "first_contact"
  else if n = 1 then some "gentle_nudge"
  else if n = 2 then some "uncomfortable_truth"
  else if n = 3 then some "brutal_reality"
  else if n = 4 then some "scorched_earth"
  else if n = 5 then some "existential_crisis"
  else none

/-- The index used by `generateIntervention`:
`Math.min(resistanceLevel, 5)` — capped above only. -/
def levelKey (resistanceLevel : ℤ) : ℤ := min resistanceLevel 5

/-- The level name `generateIntervention` looks up,
`this.resistanceLevels[Math.min(resistanceLevel, 5)]`. -/
def selectedLevel (resistanceLevel : ℤ) : Option String :=
  resistanceLevels (levelKey resistanceLevel)

/-- The six defined escalation level names. -/
def sixLevelNames : List String :=
  ["first_contact", "gentle_nudge", "uncomfortable_truth",
   "brutal_reality", "scorched_earth", "existential_crisis"]

/-!
## Outcome tracking (`BehavioralIntelligenceAPI`, src/unnamed/part_000)
-/

/-- The outcome fields read by `calculateEffectiveness`. -/
structure Outcome where
  action_taken : Bool
  revenue_impact : ℚ
  pattern_broken : Bool
  breakthrough : Bool
deriving Repr, DecidableEq

/-- One flag-conditioned weight contribution. -/
def flagScore (b : Bool) (w : ℚ) : ℚ := if b then w else 0

/-- `calculateEffectiveness`: 0.3 for `action_taken`, 0.3 for
`revenue_impact > 0`, 0.2 for `pattern_broken`, 0.2 for `breakthrough`,
capped at 1.0. -/
def calculateEffectiveness (o : Outcome) : ℚ :=
  minQ (flagScore o.action_taken (3/10)
    + flagScore (decide (0 < o.revenue_impact)) (3/10)
    + flagScore o.pattern_broken (1/5)
    + flagScore o.breakthrough (1/5)) 1

/-- Request body of `POST /api/track-outcome`. -/
structure OutcomeBody where
  tracking_id : Option String
  outcome : Option Outcome
deriving Repr, DecidableEq

/-- Response of `POST /api/track-outcome`. -/
structure TrackOutcomeResponse where
  status : ℕ
  effectiveness_recorded : Option ℚ
deriving Repr, DecidableEq

/-- The `POST /api/track-outcome` route: 400 on missing fields; the update
error is rethrown (`if (error) throw error`), so any failed write answers
500; otherwise 200 with the recorded effectiveness. -/
def trackOutcomeRoute (body : OutcomeBody) (updateDb : Db Unit) :
    TrackOutcomeResponse :=
  match body.outcome with
  | none => { status := 400, effectiveness_recorded := none }
  | some o =>
    if jsFalsy body.tracking_id then
      { status := 400, effectiveness_recorded := none }
    else
      match updateDb with
      | .ok _ => { status := 200,
                   effectiveness_recorded := some (calculateEffectiveness o) }
      | .softError => { status := 500, effectiveness_recorded := none }
      | .hardFailure => { status := 500, effectiveness_recorded := none }

/-!
## Health checks
-/

/-- `checkDatabaseHealth`: `!error` on a resolved probe, `false` when the
probe throws. -/
def checkDatabaseHealth : Db Unit → Bool
  | .ok _ => true
  | .softError => false
  | .hardFailure => false

/-- Response of the legacy `GET /health` route (part_000). -/
structure HealthResponse where
  status : ℕ
  body_status : String
  database : Bool
deriving Repr, DecidableEq

/-- The legacy `GET /health` route: `res.json(...)` with no status call, so
the HTTP status is always 200; the probe result only changes the body. -/
def healthRoute (probe : Db Unit) : HealthResponse :=
  { status := 200,
    body_status := if checkDatabaseHealth probe then "healthy" else "degraded",
    database := checkDatabaseHealth probe }

/-- The checks `getSystemHealth` performs in src/NEW/CURSOR/index.js: cache,
memory and component readiness — no datastore probe. -/
structure ProdChecks where
  cacheHealthy : Bool
  memoryHealthy : Bool
  componentsReady : Bool
deriving Repr, DecidableEq

/-- The production `GET /health` route: `res.status(healthy ? 200 : 503)`. -/
def prodHealthStatus (c : ProdChecks) : ℕ :=
  if c.cacheHealthy && c.memoryHealthy && c.componentsReady then 200 else 503

/-!
## Concrete fixtures used by the counterexamples and witnesses
-/

/-- A database snapshot with every read resolving to no rows. -/
def emptyBrutalDb : BrutalDb :=
  { cachedFresh := none, procRpc := .ok none, pricingRpc := .ok none,
    execRpc := .ok none, burnRow := .ok none }

/-- A database snapshot whose every datastore call rejects. -/
def failingBrutalDb : BrutalDb :=
  { cachedFresh := none, procRpc := .hardFailure, pricingRpc := .hardFailure,
    execRpc := .hardFailure, burnRow := .hardFailure }

/-- Engine inputs for a user with no rows in any table. -/
def emptyEngineInputs : EngineInputs :=
  { proc := { openTaskDelays := [], futureCount := 0, actionCount := 0 },
    business := { current_mrr := 0, avg_transaction_value := 0,
                  product_count := 0, revenue_history := [] },
    competitors := [], totalSignals := 0, predAccuracy := 0,
    exec := { planningCount := 0, executedCount := 0,
              blockerPatternCount := 0, daysSinceExecution := 0 } }

/-- A snapshot where the top-cost pattern is non-critical while a cheaper
critical pattern exists: 30 delay days (high severity, cost 3000 at burn
rate 100) next to an execution paralysis blocked 70 days (critical,
opportunity cost 5). -/
def exDb : BrutalDb :=
  { cachedFresh := none,
    procRpc := .ok (some { total_delay_days := 30, oldest_task_age := 10 }),
    pricingRpc := .ok none,
    execRpc := .ok (some { planning_count := 30, shipped_count := 1,
                           days_since_ship := 70, opportunity_cost := 5 }),
    burnRow := .ok (some 3000) }

/-- Business metrics for a user priced 21% under a market average of 10. -/
def gapExampleBusiness : EngineBusinessMetrics :=
  { current_mrr := 79/10, avg_transaction_value := 0, product_count := 1,
    revenue_history := [] }

/-- One comparable competitor selling at 10. -/
def gapExampleCompetitors : List CompetitorRow :=
  [{ mrr := 10, product_count := 1 }]

/-- A singleton detection-result list (one high-confidence costly result). -/
def fxResults : List (String × Option DetectResult) :=
  [("procrastination",
    some { confidence := 9/10, severity := "critical",
           estimated_cost := some 100, evidence := true })]

/-- The merged pattern `detectDataDrivenPatterns` produces from `fxResults`. -/
def fxPattern : DetectedPattern :=
  { ptype := "procrastination", confidence := 9/10, severity := "critical",
    cost := 100 }

/-- Procrastination inputs: one task 30 days old, future-leaning language. -/
def fxProcIn : ProcInputs :=
  { openTaskDelays := [30], futureCount := 2, actionCount := 1 }

/-- The result `procDetect fxProcIn 300` computes. -/
def fxProcRes : DetectResult :=
  { confidence := 5/6, severity := "critical", estimated_cost := some 300,
    evidence := true }

/-- The result of `pricingDetect` on the 21%-gap example. -/
def fxPriceRes : DetectResult :=
  { confidence := 21/100, severity := "high", estimated_cost := some (21/10),
    evidence := true }

/-- Execution inputs: 30 plans, 1 ship, 5 blocker rows, 40 days blocked. -/
def fxExecIn : ExecInputs :=
  { planningCount := 30, executedCount := 1, blockerPatternCount := 5,
    daysSinceExecution := 40 }

/-- The result `execDetect fxExecIn 300` computes. -/
def fxExecRes : DetectResult :=
  { confidence := 23/40, severity := "critical", estimated_cost := some 400,
    evidence := true }

/-- Business metrics of a mid-ranked user (mrr 85 among five competitors). -/
def fxCompBusiness : EngineBusinessMetrics :=
  { current_mrr := 85, avg_transaction_value := 0, product_count := 1,
    revenue_history := [] }

/-- Five competitor rows ordered by revenue descending. -/
def fxCompRows : List CompetitorRow :=
  [⟨100, 1⟩, ⟨90, 1⟩, ⟨80, 1⟩, ⟨70, 1⟩, ⟨60, 1⟩]

/-- The result `competitiveDetect fxCompBusiness fxCompRows` computes. -/
def fxCompRes : DetectResult :=
  { confidence := 17/20, severity := "high", estimated_cost := some 5,
    evidence := true }

/-- Metrics with a perfectly flat three-month revenue history. -/
def fxStagBusiness : EngineBusinessMetrics :=
  { current_mrr := 0, avg_transaction_value := 0, product_count := 0,
    revenue_history := [100, 100, 100] }

/-- The result `stagnationDetect fxStagBusiness` computes. -/
def fxStagRes : DetectResult :=
  { confidence := 1/4, severity := "high", estimated_cost := some (993/10),
    evidence := true }

/-- The pattern `detectProcrastinationBrutally` computes on a 90-day delay
with burn rate 100. -/
def fxBrutalProc : BrutalPattern :=
  { pattern_type := "procrastination", confidence := some (19/20),
    severity := "critical", estimated_cost := 9000 }

/-!
## Helper lemmas
-/

theorem minQ_le_left (a b : ℚ) : minQ a b ≤ a := by
  unfold minQ
  split
  · exact le_rfl
  · exact (lt_of_not_le (by assumption)).le

theorem minQ_le_right (a b : ℚ) : minQ a b ≤ b := by
  unfold minQ
  split
  · assumption
  · exact le_rfl

theorem le_minQ {c a b : ℚ} (h1 : c ≤ a) (h2 : c ≤ b) : c ≤ minQ a b := by
  unfold minQ
  split <;> assumption

theorem mem_insertDescBy {α β : Type} [LinearOrder β] (k : α → β) (a x : α)
    (l : List α) (hx : x ∈ insertDescBy k a l) : x = a ∨ x ∈ l := by
  induction l with
  | nil => simpa [insertDescBy] using hx
  | cons b t ih =>
    by_cases h : k b ≤ k a
    · rw [insertDescBy, if_pos h] at hx
      exact List.mem_cons.mp hx
    · rw [insertDescBy, if_neg h] at hx
      rcases List.mem_cons.mp hx with h1 | h1
      · exact Or.inr (h1 ▸ List.mem_cons_self b t)
      · rcases ih h1 with h2 | h2
        · exact Or.inl h2
        · exact Or.inr (List.mem_cons_of_mem b h2)

theorem pairwise_insertDescBy {α β : Type} [LinearOrder β] (k : α → β) (a : α)
    (l : List α) (hl : l.Pairwise (fun x y => k y ≤ k x)) :
    (insertDescBy k a l).Pairwise (fun x y => k y ≤ k x) := by
  induction l with
  | nil => simp [insertDescBy]
  | cons b t ih =>
    rcases List.pairwise_cons.mp hl with ⟨hb, ht⟩
    by_cases h : k b ≤ k a
    · rw [insertDescBy, if_pos h]
      refine List.pairwise_cons.mpr ⟨?_, hl⟩
      intro y hy
      rcases List.mem_cons.mp hy with rfl | hy
      · exact h
      · exact le_trans (hb y hy) h
    · rw [insertDescBy, if_neg h]
      refine List.pairwise_cons.mpr ⟨?_, ih ht⟩
      intro y hy
      rcases mem_insertDescBy k a y t hy with rfl | hy
      · exact (lt_of_not_le h).le
      · exact hb y hy

theorem pairwise_sortByKeyDesc {α β : Type} [LinearOrder β] (k : α → β)
    (l : List α) : (sortByKeyDesc k l).Pairwise (fun x y => k y ≤ k x) := by
  induction l with
  | nil => simp [sortByKeyDesc]
  | cons a t ih =>
    rw [sortByKeyDesc]
    exact pairwise_insertDescBy k a _ ih

theorem mem_sortByKeyDesc {α β : Type} [LinearOrder β] (k : α → β)
    (l : List α) (x : α) (hx : x ∈ sortByKeyDesc k l) : x ∈ l := by
  induction l with
  | nil => simp [sortByKeyDesc] at hx
  | cons a t ih =>
    rw [sortByKeyDesc] at hx
    rcases mem_insertDescBy k a x _ hx with rfl | hx
    · exact List.mem_cons_self x t
    · exact List.mem_cons_of_mem a (ih hx)

theorem procDelayScore_nonneg (delays : List ℕ) : 0 ≤ procDelayScore delays := by
  unfold procDelayScore
  split
  · exact le_rfl
  · exact le_minQ (by positivity) (by norm_num)

theorem procDelayScore_le_one (delays : List ℕ) : procDelayScore delays ≤ 1 := by
  unfold procDelayScore
  split
  · norm_num
  · exact minQ_le_right _ _

theorem procFutureScore_nonneg (f a : ℕ) : 0 ≤ procFutureScore f a := by
  unfold procFutureScore
  split
  · exact le_rfl
  · positivity

theorem procFutureScore_le_one (f a : ℕ) : procFutureScore f a ≤ 1 := by
  unfold procFutureScore
  split
  · norm_num
  · rename_i h
    have hp : (0 : ℚ) < ((f + a : ℕ) : ℚ) := by
      exact_mod_cast Nat.pos_of_ne_zero h
    rw [div_le_one hp]
    exact_mod_cast Nat.le_add_right f a

theorem execPlanConf_nonneg (p : ℕ) : 0 ≤ execPlanConf p :=
  le_minQ (by positivity) (by norm_num)

theorem execPlanConf_le (p : ℕ) : execPlanConf p ≤ 9/10 :=
  minQ_le_right _ _

theorem execBlockConf_nonneg (c : ℕ) : 0 ≤ execBlockConf c := by
  unfold execBlockConf
  split
  · exact le_rfl
  · exact le_minQ (by positivity) (by norm_num)

theorem execBlockConf_le (c : ℕ) : execBlockConf c ≤ 9/10 := by
  unfold execBlockConf
  split
  · norm_num
  · exact minQ_le_right _ _

theorem flagScore_nonneg (b : Bool) (w : ℚ) (hw : 0 ≤ w) :
    0 ≤ flagScore b w := by
  unfold flagScore
  split
  · exact hw
  · exact le_rfl

/-!
## Claims
-/

unseal Rat.mul Rat.add Rat.inv Rat.sub in
/-- C1 counterexample: on the optimized analyze handler the merged list is
sorted by cost descending with head `procrastination` (cost 3000, severity
high), but the intervention is generated from the first critical-severity
pattern, `execution_paralysis` (cost 5) — not from the highest-cost first
element. -/
theorem C1_counterexample :
    (handleAnalyze ⟨some "u1", some "go"⟩ exDb).patterns.map
        (fun p => (p.pattern_type, p.estimated_cost))
      = [("procrastination", 3000), ("execution_paralysis", 5)] ∧
    (handleAnalyze ⟨some "u1", some "go"⟩ exDb).interventionPattern
      = some "execution_paralysis" ∧
    ¬ (handleAnalyze ⟨some "u1", some "go"⟩ exDb).interventionPattern
      = ((handleAnalyze ⟨some "u1", some "go"⟩ exDb).patterns.head?).map
          (fun p => p.pattern_type) := by
  decide

/-- C1 (amended): every merged pattern list — legacy engine and optimized
path alike — is sorted by estimated dollar cost descending, and the legacy
engine generates its intervention from the first (highest-cost) element of
that sorted list; the optimized handler instead templates the first
critical-severity pattern of the sorted list. -/
theorem C1_sorted_and_primary
    (results : List (String × Option DetectResult)) (db : BrutalDb)
    (p : DetectedPattern) (ps : List DetectedPattern)
    (h : detectDataDrivenPatterns results = p :: ps) :
    (detectDataDrivenPatterns results).Pairwise (fun a b => b.cost ≤ a.cost) ∧
    (computeBrutalPatterns db).Pairwise
      (fun a b => b.estimated_cost ≤ a.estimated_cost) ∧
    generateUncomfortableInterventionPattern (detectDataDrivenPatterns results)
      = some p.ptype := by
  refine ⟨?_, ?_, ?_⟩
  · unfold detectDataDrivenPatterns
    exact pairwise_sortByKeyDesc (fun q : DetectedPattern => q.cost) _
  · unfold computeBrutalPatterns
    exact pairwise_sortByKeyDesc (fun q : BrutalPattern => q.estimated_cost) _
  · rw [h]
    rfl

unseal Rat.mul Rat.add Rat.inv Rat.sub in
/-- C1 witness: a singleton high-confidence detection. -/
theorem C1_witness :
    detectDataDrivenPatterns fxResults = fxPattern :: [] ∧
    ((detectDataDrivenPatterns fxResults).Pairwise (fun a b => b.cost ≤ a.cost) ∧
     (computeBrutalPatterns emptyBrutalDb).Pairwise
       (fun a b => b.estimated_cost ≤ a.estimated_cost) ∧
     generateUncomfortableInterventionPattern (detectDataDrivenPatterns fxResults)
       = some fxPattern.ptype) :=
  ⟨by decide,
   C1_sorted_and_primary fxResults emptyBrutalDb fxPattern [] (by decide)⟩

/-- C2: the stored resistance level after `trackResistance` never
decreases, stays an integer in [0,5], and increases by exactly 1 (capped at
5) precisely when the hedge-marker count of the reply exceeds 2. -/
theorem C2_resistance_monotone_bounded (before : ℕ) (reply : String)
    (hb : before ≤ 5) :
    before ≤ trackResistanceStored before reply ∧
    trackResistanceStored before reply ≤ 5 ∧
    (2 < resistanceScore reply →
      trackResistanceStored before reply = min (before + 1) 5) ∧
    (resistanceScore reply ≤ 2 → trackResistanceStored before reply = before) := by
  unfold trackResistanceStored
  by_cases h : 2 < resistanceScore reply
  · rw [if_pos h]
    exact ⟨by omega, by omega, fun _ => rfl, fun h2 => absurd h (by omega)⟩
  · rw [if_neg h]
    exact ⟨by omega, by omega, fun h2 => absurd h2 h, fun _ => by omega⟩

/-- C2 witness: level 2 with a triple-hedge reply. -/
theorem C2_witness :
    2 ≤ trackResistanceStored 2 "but however impossible" ∧
    trackResistanceStored 2 "but however impossible" ≤ 5 ∧
    (2 < resistanceScore "but however impossible" →
      trackResistanceStored 2 "but however impossible" = min (2 + 1) 5) ∧
    (resistanceScore "but however impossible" ≤ 2 →
      trackResistanceStored 2 "but however impossible" = 2) :=
  C2_resistance_monotone_bounded 2 "but however impossible" (by decide)

/-- C3: every confidence produced by the five engine detectors lies in
[0,1]; so do the optimized procrastination detector's confidence and the
top-level `calculateRealConfidence` of an analysis call, given a stored
prediction accuracy and pattern confidences in range. -/
theorem C3_confidence_in_unit_interval :
    (∀ (inp : ProcInputs) (mrr : ℚ) (r : DetectResult),
        procDetect inp mrr = some r → 0 ≤ r.confidence ∧ r.confidence ≤ 1) ∧
    (∀ (b : EngineBusinessMetrics) (comps : List CompetitorRow) (r : DetectResult),
        pricingDetect b comps = some r → 0 ≤ r.confidence ∧ r.confidence ≤ 1) ∧
    (∀ (e : ExecInputs) (mrr : ℚ) (r : DetectResult),
        execDetect e mrr = some r → 0 ≤ r.confidence ∧ r.confidence ≤ 1) ∧
    (∀ (b : EngineBusinessMetrics) (comps : List CompetitorRow) (r : DetectResult),
        competitiveDetect b comps = some r → 0 ≤ r.confidence ∧ r.confidence ≤ 1) ∧
    (∀ (b : EngineBusinessMetrics) (r : DetectResult),
        stagnationDetect b = some r → 0 ≤ r.confidence ∧ r.confidence ≤ 1) ∧
    (∀ (rpc : Db (Option ProcMetrics)) (burn : ℚ) (p : BrutalPattern),
        detectProcrastinationBrutally rpc burn = some p →
        ∃ c, p.confidence = some c ∧ 0 ≤ c ∧ c ≤ 1) ∧
    (∀ (patterns : List DetectedPattern) (totalSignals : ℕ) (predAcc : ℚ),
        (∀ q ∈ patterns, 0 ≤ q.confidence ∧ q.confidence ≤ 1) →
        0 ≤ predAcc → predAcc ≤ 1 →
        0 ≤ calculateRealConfidence patterns totalSignals predAcc ∧
        calculateRealConfidence patterns totalSignals predAcc ≤ 1) := by
  refine ⟨?_, ?_, ?_, ?_, ?_, ?_, ?_⟩
  · intro inp mrr r h
    unfold procDetect at h
    split at h
    · exact Option.noConfusion h
    · have hr := Option.some.inj h
      subst hr
      have h1 := procDelayScore_nonneg inp.openTaskDelays
      have h2 := procDelayScore_le_one inp.openTaskDelays
      have h3 := procFutureScore_nonneg inp.futureCount inp.actionCount
      have h4 := procFutureScore_le_one inp.futureCount inp.actionCount
      unfold procConfidence
      constructor <;> dsimp only <;> linarith
  · intro b comps r h
    unfold pricingDetect at h
    split at h
    · exact Option.noConfusion h
    · split at h
      · exact Option.noConfusion h
      · split at h
        · exact Option.noConfusion h
        · split at h
          · rename_i hgap
            have hr := Option.some.inj h
            subst hr
            constructor
            · exact le_minQ (by linarith) (by norm_num)
            · exact le_trans (minQ_le_right _ _) (by norm_num)
          · exact Option.noConfusion h
  · intro e mrr r h
    unfold execDetect at h
    split at h
    · exact Option.noConfusion h
    · have hr := Option.some.inj h
      subst hr
      have h1 := execPlanConf_nonneg e.planningCount
      have h2 := execPlanConf_le e.planningCount
      have h3 := execBlockConf_nonneg e.blockerPatternCount
      have h4 := execBlockConf_le e.blockerPatternCount
      unfold execConfidence
      constructor <;> dsimp only <;> linarith
  · intro b comps r h
    unfold competitiveDetect at h
    split at h
    · exact Option.noConfusion h
    · split at h
      · exact Option.noConfusion h
      · have hr := Option.some.inj h
        subst hr
        constructor <;> dsimp only <;> norm_num
  · intro b r h
    unfold stagnationDetect at h
    split at h
    · exact Option.noConfusion h
    · split at h
      · have hr := Option.some.inj h
        subst hr
        constructor
        · exact le_minQ (by positivity) (by norm_num)
        · exact le_trans (minQ_le_right _ _) (by norm_num)
      · exact Option.noConfusion h
  · intro rpc burn p h
    unfold detectProcrastinationBrutally at h
    cases rpc with
    | softError => exact Option.noConfusion h
    | hardFailure => exact Option.noConfusion h
    | ok od =>
      have hr := Option.some.inj h
      subst hr
      exact ⟨_, rfl, le_minQ (by positivity) (by norm_num),
        le_trans (minQ_le_right _ _) (by norm_num)⟩
  · intro patterns totalSignals predAcc hp h0 h1
    have hdq0 : (0 : ℚ) ≤ minQ ((totalSignals : ℚ) / 10) 1 :=
      le_minQ (by positivity) (by norm_num)
    have hdq1 : minQ ((totalSignals : ℚ) / 10) 1 ≤ 1 := minQ_le_right _ _
    unfold calculateRealConfidence
    rcases patterns with _ | ⟨q, rest⟩
    · by_cases hpa : predAcc = 0
      · rw [if_pos hpa]
        constructor <;> dsimp only <;> linarith
      · rw [if_neg hpa]
        constructor <;> dsimp only <;> linarith
    · have hq := hp q (List.mem_cons_self q rest)
      by_cases hpa : predAcc = 0
      · rw [if_pos hpa]
        constructor <;> dsimp only <;> linarith [hq.1, hq.2]
      · rw [if_neg hpa]
        constructor <;> dsimp only <;> linarith [hq.1, hq.2]

unseal Rat.mul Rat.add Rat.inv Rat.sub in
/-- C3 witness: each bound instantiated at a concrete detector run. -/
theorem C3_witness :
    (0 ≤ fxProcRes.confidence ∧ fxProcRes.confidence ≤ 1) ∧
    (0 ≤ fxPriceRes.confidence ∧ fxPriceRes.confidence ≤ 1) ∧
    (0 ≤ fxExecRes.confidence ∧ fxExecRes.confidence ≤ 1) ∧
    (0 ≤ fxCompRes.confidence ∧ fxCompRes.confidence ≤ 1) ∧
    (0 ≤ fxStagRes.confidence ∧ fxStagRes.confidence ≤ 1) ∧
    (∃ c, fxBrutalProc.confidence = some c ∧ 0 ≤ c ∧ c ≤ 1) ∧
    (0 ≤ calculateRealConfidence [] 0 0 ∧ calculateRealConfidence [] 0 0 ≤ 1) :=
  ⟨C3_confidence_in_unit_interval.1 fxProcIn 300 fxProcRes (by decide),
   C3_confidence_in_unit_interval.2.1 gapExampleBusiness gapExampleCompetitors
     fxPriceRes (by decide),
   C3_confidence_in_unit_interval.2.2.1 fxExecIn 300 fxExecRes (by decide),
   C3_confidence_in_unit_interval.2.2.2.1 fxCompBusiness fxCompRows fxCompRes
     (by decide),
   C3_confidence_in_unit_interval.2.2.2.2.1 fxStagBusiness fxStagRes (by decide),
   C3_confidence_in_unit_interval.2.2.2.2.2.1 (.ok (some ⟨90, 10⟩)) 100
     fxBrutalProc (by decide),
   C3_confidence_in_unit_interval.2.2.2.2.2.2 [] 0 0 (by simp) le_rfl
     (by norm_num)⟩

/-- C4 counterexample: with a valid body and a rejected datastore promise,
the legacy engine route answers 500 — `analyzeUser` rethrows the failure
instead of substituting an empty pattern list. -/
theorem C4_counterexample :
    (apiAnalyzeRoute ⟨some "u1", some "ship"⟩ true emptyEngineInputs).status = 500 ∧
    ¬ (apiAnalyzeRoute ⟨some "u1", some "ship"⟩ true emptyEngineInputs).status = 200 := by
  decide

/-- C4 (amended): on the optimized handler a datastore failure is caught —
with no cached entry and every RPC rejected the request still answers 200
with an empty pattern list and no intervention; the legacy engine route
instead answers 500 when a datastore promise rejects. -/
theorem C4_datastore_failure_paths (body : AnalyzeBody) (db : BrutalDb)
    (inp : EngineInputs)
    (hu : jsFalsy body.userId = false) (hm : jsFalsy body.message = false)
    (hc : db.cachedFresh = none)
    (hp : db.procRpc = .hardFailure) (hq : db.pricingRpc = .hardFailure)
    (he : db.execRpc = .hardFailure) :
    (handleAnalyze body db).status = 200 ∧
    (handleAnalyze body db).patterns = [] ∧
    (handleAnalyze body db).should_intervene = false ∧
    (apiAnalyzeRoute body true inp).status = 500 := by
  have hdet : detectAllPatternsBrutally db = [] := by
    unfold detectAllPatternsBrutally computeBrutalPatterns
    rw [hc, hp, hq, he]
    rfl
  refine ⟨?_, ?_, ?_, ?_⟩
  · simp [handleAnalyze, hu, hm]
  · simp [handleAnalyze, hu, hm, hdet]
  · simp [handleAnalyze, hu, hm, hdet]
  · simp [apiAnalyzeRoute, hu, hm]

/-- C4 witness: an all-rejecting database snapshot. -/
theorem C4_witness :
    (handleAnalyze ⟨some "u1", some "go"⟩ failingBrutalDb).status = 200 ∧
    (handleAnalyze ⟨some "u1", some "go"⟩ failingBrutalDb).patterns = [] ∧
    (handleAnalyze ⟨some "u1", some "go"⟩ failingBrutalDb).should_intervene = false ∧
    (apiAnalyzeRoute ⟨some "u1", some "go"⟩ true emptyEngineInputs).status = 500 :=
  C4_datastore_failure_paths ⟨some "u1", some "go"⟩ failingBrutalDb
    emptyEngineInputs (by decide) (by decide) rfl rfl rfl rfl

unseal Rat.mul Rat.add Rat.inv Rat.sub in
/-- C5: the perfect outcome (`action_taken`, positive revenue impact,
`pattern_broken`, `breakthrough`) records effectiveness exactly 1.0 — the
sum 0.3 + 0.3 + 0.2 + 0.2 capped at 1 — and every effectiveness score lies
in [0,1]. -/
theorem C5_effectiveness_perfect_score :
    calculateEffectiveness ⟨true, 500, true, true⟩ = 1 ∧
    (trackOutcomeRoute ⟨some "t1", some ⟨true, 500, true, true⟩⟩
      (.ok ())).status = 200 ∧
    (trackOutcomeRoute ⟨some "t1", some ⟨true, 500, true, true⟩⟩
      (.ok ())).effectiveness_recorded = some 1 ∧
    (∀ o : Outcome, calculateEffectiveness o ≤ 1) ∧
    (∀ o : Outcome, 0 ≤ calculateEffectiveness o) := by
  refine ⟨by decide, by decide, by decide, ?_, ?_⟩
  · intro o
    exact minQ_le_right _ _
  · intro o
    unfold calculateEffectiveness
    refine le_minQ ?_ (by norm_num)
    have h1 := flagScore_nonneg o.action_taken (3/10) (by norm_num)
    have h2 := flagScore_nonneg (decide (0 < o.revenue_impact)) (3/10) (by norm_num)
    have h3 := flagScore_nonneg o.pattern_broken (1/5) (by norm_num)
    have h4 := flagScore_nonneg o.breakthrough (1/5) (by norm_num)
    linarith

/-- C6 counterexample: the level index is `Math.min(level, 5)`, which does
not clamp below zero — at resistance −1 the lookup is undefined and no
defined level is selected. -/
theorem C6_counterexample :
    levelKey (-1) = -1 ∧ selectedLevel (-1) = none := by
  decide

/-- C6 (amended): the level used is `min(counter, 5)`; for every
non-negative counter, including values above 5, the selected level names
one of the six defined levels — negative counters instead select nothing
and fall through to the default intervention. -/
theorem C6_level_selection (r : ℤ) (hr : 0 ≤ r) :
    ∃ name, selectedLevel r = some name ∧ name ∈ sixLevelNames := by
  have h6 : levelKey r = 0 ∨ levelKey r = 1 ∨ levelKey r = 2 ∨ levelKey r = 3
      ∨ levelKey r = 4 ∨ levelKey r = 5 := by
    unfold levelKey
    omega
  unfold selectedLevel
  rcases h6 with h | h | h | h | h | h <;> rw [h] <;>
    exact ⟨_, rfl, by decide⟩

/-- C6 witness: a counter above the cap selects the top level. -/
theorem C6_witness :
    ∃ name, selectedLevel 7 = some name ∧ name ∈ sixLevelNames :=
  C6_level_selection 7 (by decide)

/-- C7 counterexample: the literal body `{userId:"u2"}` carries no
`message`, so validation answers 400 before any pattern detection — not
200. -/
theorem C7_counterexample :
    (handleAnalyze ⟨some "u2", none⟩ emptyBrutalDb).status = 400 ∧
    (handleAnalyze ⟨some "u2", none⟩ emptyBrutalDb).ranDetection = false ∧
    (apiAnalyzeRoute ⟨some "u2", none⟩ false emptyEngineInputs).status = 400 := by
  decide

unseal Rat.mul Rat.add Rat.inv Rat.sub in
/-- C7 (amended): with a non-empty message present, a user with no rows in
any table gets HTTP 200, an empty pattern list and
`should_intervene = false`, on both analyze paths. -/
theorem C7_empty_user_analysis (msg : String) (hm : msg ≠ "") :
    (handleAnalyze ⟨some "u2", some msg⟩ emptyBrutalDb).status = 200 ∧
    (handleAnalyze ⟨some "u2", some msg⟩ emptyBrutalDb).patterns = [] ∧
    (handleAnalyze ⟨some "u2", some msg⟩ emptyBrutalDb).should_intervene = false ∧
    (apiAnalyzeRoute ⟨some "u2", some msg⟩ false emptyEngineInputs).status = 200 ∧
    (apiAnalyzeRoute ⟨some "u2", some msg⟩ false emptyEngineInputs).patterns = [] ∧
    (apiAnalyzeRoute ⟨some "u2", some msg⟩ false
      emptyEngineInputs).should_intervene = false := by
  have hfal : jsFalsy (some msg) = false := decide_eq_false hm
  have hfan : jsFalsy (some "u2") = false := by decide
  have hdet : detectAllPatternsBrutally emptyBrutalDb = [] := by decide
  have heng : detectDataDrivenPatterns (runEngineDetectors emptyEngineInputs)
      = [] := by decide
  refine ⟨?_, ?_, ?_, ?_, ?_, ?_⟩ <;>
    simp [handleAnalyze, apiAnalyzeRoute, engineAnalyze, hfal, hfan, hdet, heng]

unseal Rat.mul Rat.add Rat.inv Rat.sub in
/-- C7 witness: a concrete non-empty message. -/
theorem C7_witness :
    (handleAnalyze ⟨some "u2", some "hello"⟩ emptyBrutalDb).status = 200 ∧
    (handleAnalyze ⟨some "u2", some "hello"⟩ emptyBrutalDb).patterns = [] ∧
    (handleAnalyze ⟨some "u2", some "hello"⟩ emptyBrutalDb).should_intervene
      = false ∧
    (apiAnalyzeRoute ⟨some "u2", some "hello"⟩ false
      emptyEngineInputs).status = 200 ∧
    (apiAnalyzeRoute ⟨some "u2", some "hello"⟩ false
      emptyEngineInputs).patterns = [] ∧
    (apiAnalyzeRoute ⟨some "u2", some "hello"⟩ false
      emptyEngineInputs).should_intervene = false :=
  C7_empty_user_analysis "hello" (by decide)

/-- C8: a missing `userId` or a missing `message` yields HTTP 400 on both
analyze handlers, and pattern detection never runs. -/
theorem C8_missing_fields_rejected (body : AnalyzeBody) (db : BrutalDb)
    (hf : Bool) (inp : EngineInputs)
    (h : body.userId = none ∨ body.message = none) :
    (handleAnalyze body db).status = 400 ∧
    (handleAnalyze body db).ranDetection = false ∧
    (apiAnalyzeRoute body hf inp).status = 400 ∧
    (apiAnalyzeRoute body hf inp).ranDetection = false := by
  have hcond : (jsFalsy body.userId || jsFalsy body.message) = true := by
    rcases h with h | h <;> rw [h] <;> simp [jsFalsy]
  refine ⟨?_, ?_, ?_, ?_⟩ <;> simp [handleAnalyze, apiAnalyzeRoute, hcond]

/-- C8 witness: a body with no `userId`. -/
theorem C8_witness :
    (handleAnalyze ⟨none, some "m"⟩ emptyBrutalDb).status = 400 ∧
    (handleAnalyze ⟨none, some "m"⟩ emptyBrutalDb).ranDetection = false ∧
    (apiAnalyzeRoute ⟨none, some "m"⟩ false emptyEngineInputs).status = 400 ∧
    (apiAnalyzeRoute ⟨none, some "m"⟩ false emptyEngineInputs).ranDetection
      = false :=
  C8_missing_fields_rejected ⟨none, some "m"⟩ emptyBrutalDb false
    emptyEngineInputs (Or.inl rfl)

/-- C9 counterexample: a failing datastore probe still yields HTTP 200 from
the legacy health route — `res.json` never sets a status code; only the
response body reports degradation. -/
theorem C9_counterexample :
    checkDatabaseHealth (Db.softError) = false ∧
    (healthRoute (Db.softError)).status = 200 := by
  decide

/-- C9 (amended): whenever the probe fails the legacy health route still
answers 200, reporting `database: false` and body status `degraded`; the
production server's health route answers 503 exactly when its own checks
fail, and those checks (cache, memory, components) include no datastore
probe. -/
theorem C9_health_status (probe : Db Unit) (c : ProdChecks)
    (hfail : checkDatabaseHealth probe = false) :
    (healthRoute probe).status = 200 ∧
    (healthRoute probe).database = false ∧
    (healthRoute probe).body_status = "degraded" ∧
    ((c.cacheHealthy && c.memoryHealthy && c.componentsReady) = false →
      prodHealthStatus c = 503) := by
  refine ⟨rfl, ?_, ?_, ?_⟩
  · simp [healthRoute, hfail]
  · simp [healthRoute, hfail]
  · intro hc
    simp [prodHealthStatus, hc]

/-- C9 witness: a probe resolving with an error, and failing production
checks. -/
theorem C9_witness :
    (healthRoute (Db.softError)).status = 200 ∧
    (healthRoute (Db.softError)).database = false ∧
    (healthRoute (Db.softError)).body_status = "degraded" ∧
    ((false && true && true) = false → prodHealthStatus ⟨false, true, true⟩ = 503) :=
  C9_health_status Db.softError ⟨false, true, true⟩ rfl

unseal Rat.mul Rat.add Rat.inv Rat.sub in
/-- C10: every pattern in a merged analysis list has confidence strictly
above 0.7 on both paths, and a pricing gap just above the 20% trigger (21%)
fires the detector with confidence 0.21 yet is silently dropped from the
merged output. -/
theorem C10_confidence_filter :
    (∀ results : List (String × Option DetectResult),
        (detectDataDrivenPatterns results).all
          (fun p => decide (7/10 < p.confidence)) = true) ∧
    (∀ db : BrutalDb,
        (computeBrutalPatterns db).all
          (fun p => confGtBool p.confidence (7/10)) = true) ∧
    (pricingDetect gapExampleBusiness gapExampleCompetitors).isSome = true ∧
    ((pricingDetect gapExampleBusiness gapExampleCompetitors).map
        (fun r => r.confidence)) = some (21/100) ∧
    detectDataDrivenPatterns
      [("pricing_cowardice",
        pricingDetect gapExampleBusiness gapExampleCompetitors)] = [] := by
  refine ⟨?_, ?_, by decide, by decide, by decide⟩
  · intro results
    rw [List.all_eq_true]
    intro p hp
    unfold detectDataDrivenPatterns at hp
    have hp' := mem_sortByKeyDesc (fun q : DetectedPattern => q.cost) _ p hp
    rcases List.mem_filterMap.mp hp' with ⟨⟨t, r⟩, hmem, hf⟩
    rcases r with _ | res
    · exact Option.noConfusion hf
    · dsimp only at hf
      by_cases hcond : 7/10 < res.confidence ∧ res.evidence = true
      · rw [if_pos hcond] at hf
        have := Option.some.inj hf
        subst this
        exact decide_eq_true hcond.1
      · rw [if_neg hcond] at hf
        exact Option.noConfusion hf
  · intro db
    rw [List.all_eq_true]
    intro p hp
    unfold computeBrutalPatterns at hp
    have hp' := mem_sortByKeyDesc (fun q : BrutalPattern => q.estimated_cost) _ p hp
    exact (List.mem_filter.mp hp').2

end Celeste7
